import Mathlib

/-!
Verification of the query-orchestration engine of the multimodal PDF RAG system.

This file shallowly embeds the Python sources
src/backend/langchain_server/graphs/analytics_graph.py,
src/backend/app/services/analytics_service.py and
src/backend/langchain_server/graphs/rag_graph.py into Lean and proves the
specified properties about them.

Modelling conventions:
- Python strings are Lean String values; every Python string operation used by
  the embedded code (lower, in, split, strip, replace, endswith, join) is
  re-implemented over the underlying character list so that all definitions
  evaluate inside the kernel.
- Python floats are modelled as rationals.
- The external collaborators (vector-store retrieval, LLM text generation and
  chart generation) are modelled by an Oracle record; a call site that can
  raise is an Except value, with Except.error e modelling a raised exception
  whose str is e.
- Stage functions of the LangGraph workflow additionally report which
  Generation prompts and Chart calls they issued, so that claims about which
  collaborators were invoked can be stated.
-/

namespace PdfRag

/-! ## Python string primitives -/

/-- Model of Python str.lower, mapping each character to lower case. -/
def pyLower (s : String) : String := String.mk (s.data.map Char.toLower)

/-- Character-list prefix test. -/
def listIsPrefix : List Char → List Char → Bool
  | [], _ => true
  | _ :: _, [] => false
  | a :: as, b :: bs => a == b && listIsPrefix as bs

/-- Character-list substring test; needle occurs contiguously in the haystack. -/
def listIsInfix (needle : List Char) : List Char → Bool
  | [] => listIsPrefix needle []
  | c :: t => listIsPrefix needle (c :: t) || listIsInfix needle t

/-- Model of the Python expression needle in hay for strings. -/
def pyContains (hay needle : String) : Bool := listIsInfix needle.data hay.data

/-- Model of Python any(word in hay for word in words). -/
def containsAny (hay : String) (words : List String) : Bool :=
  words.any (fun w => pyContains hay w)

/-- Splitting worker: scans the list, breaking at every occurrence of the
separator; the fuel argument bounds the recursion and is always given as more
than the length of the scanned list. -/
def splitAux (sep : List Char) : Nat → List Char → List Char → List (List Char)
  | 0, l, acc => [acc.reverse ++ l]
  | fuel + 1, l, acc =>
    match l with
    | [] => [acc.reverse]
    | c :: rest =>
      if listIsPrefix sep l then
        acc.reverse :: splitAux sep fuel (l.drop sep.length) []
      else
        splitAux sep fuel rest (c :: acc)

/-- Model of Python s.split(sep) for a non-empty separator. -/
def pySplit (s sep : String) : List String :=
  if sep.data.isEmpty then [s]
  else (splitAux sep.data (s.data.length + 1) s.data []).map String.mk

/-- Python whitespace as removed by str.strip. -/
def isPySpace (c : Char) : Bool :=
  c == ' ' || c == '\t' || c == '\n' || c == '\r' || c == '\x0b' || c == '\x0c'

/-- Model of Python s.strip(). -/
def pyStrip (s : String) : String :=
  String.mk (((s.data.dropWhile isPySpace).reverse.dropWhile isPySpace).reverse)

/-- Model of Python s.replace(old, new) for a non-empty old. -/
def pyReplace (s old new : String) : String :=
  if old.data.isEmpty then s
  else String.mk
    (List.intercalate new.data (splitAux old.data (s.data.length + 1) s.data []))

/-- Model of Python s.endswith(suffix). -/
def pyEndsWith (s suffix : String) : Bool :=
  listIsPrefix suffix.data.reverse s.data.reverse

/-- Model of Python sep.join(parts) for a list of strings. -/
def pyJoinList (sep : String) (parts : List String) : String :=
  String.mk (List.intercalate sep.data (parts.map String.data))

/-! ## Python scalar values and their repr -/

/-- A scalar cell of a table record: Python string or float. -/
inductive PyVal where
  | vstr (s : String)
  | vnum (q : ℚ)

/-- A flat table row: an insertion-ordered dictionary from strings to scalars. -/
abbrev Rcd := List (String × PyVal)

/-- A single-quote character, kept as a named constant. -/
def sq : String := String.singleton (Char.ofNat 39)

/-- Model of the repr of a Python float whose value is the given rational;
covers all values produced by the embedded float parser (finite decimals).
Values that are not finite decimals fall back to the raw rational rendering. -/
def pyFloatRepr (q : ℚ) : String :=
  let sign := if q < 0 then "-" else ""
  let a := |q|
  match (List.range 31).find? (fun k => (a * (10 : ℚ) ^ k).den == 1) with
  | some k =>
    let n := (a * (10 : ℚ) ^ k).num.toNat
    if k == 0 then sign ++ toString n ++ ".0"
    else
      let s := toString n
      let s := if s.length ≤ k then
        String.mk (List.replicate (k + 1 - s.length) '0') ++ s else s
      sign ++ String.mk (s.data.take (s.data.length - k)) ++ "." ++
        String.mk (s.data.drop (s.data.length - k))
  | none => sign ++ toString a

/-- Model of Python repr of a table cell (no escape handling inside strings). -/
def pyValRepr : PyVal → String
  | .vstr s => sq ++ s ++ sq
  | .vnum q => pyFloatRepr q

/-- Model of Python repr of one row dict, in insertion order. -/
def pyRecordRepr (r : Rcd) : String :=
  "\x7b" ++
    pyJoinList ", " (r.map (fun p => sq ++ p.1 ++ sq ++ ": " ++ pyValRepr p.2)) ++
    "\x7d"

/-- Model of Python repr of a list of row dicts. -/
def pyRecordsRepr (l : List Rcd) : String :=
  "[" ++ pyJoinList ", " (l.map pyRecordRepr) ++ "]"

/-- Model of Python float(s) on finite decimal literals: optional sign, digits
with at most one decimal point, at least one digit overall.  Exotic accepted
forms (exponents, inf, nan, underscores) are outside the modelled fragment. -/
def parseFloat (s : String) : Option ℚ :=
  let cs := s.data
  let signAndRest : ℚ × List Char :=
    match cs with
    | '-' :: r => (-1, r)
    | '+' :: r => (1, r)
    | r => (1, r)
  let sgn := signAndRest.1
  let body := signAndRest.2
  let digitsToNat (l : List Char) : ℕ :=
    l.foldl (fun a c => a * 10 + (c.toNat - 48)) 0
  match splitAux ['.'] (body.length + 1) body [] with
  | [a] =>
    if a ≠ [] ∧ a.all Char.isDigit then some (sgn * digitsToNat a) else none
  | [a, b] =>
    if (a ≠ [] ∨ b ≠ []) ∧ a.all Char.isDigit ∧ b.all Char.isDigit then
      some (sgn * ((digitsToNat a : ℚ) + (digitsToNat b : ℚ) / (10 : ℚ) ^ b.length))
    else none
  | _ => none

/-! ## JSON values and a model of json.loads

The LLM collaborator returns free-form text which the code feeds to Python
json.loads.  We model JSON values and a recursive-descent parser for the
fragment exchanged by the code: null, true, false, integers, strings without
escape sequences, arrays and objects.  A parse failure models the exception
raised by json.loads. -/

inductive JVal where
  | jstr (s : String)
  | jnum (n : Int)
  | jbool (b : Bool)
  | jnull
  | jarr (l : List JVal)
  | jobj (l : List (String × JVal))

/-- Drop leading JSON whitespace. -/
def skipWs : List Char → List Char
  | [] => []
  | c :: r => if c == ' ' || c == '\n' || c == '\t' || c == '\r' then skipWs r else c :: r

/-- Scan a string literal body up to the closing quote (no escapes). -/
def scanStr : List Char → Option (List Char × List Char)
  | [] => none
  | c :: r =>
    if c == '"' then some ([], r)
    else match scanStr r with
      | some (s, rest) => some (c :: s, rest)
      | none => none

/-- Left brace and right brace characters, kept as named constants. -/
def lbrace : Char := Char.ofNat 123

def rbrace : Char := Char.ofNat 125

mutual

/-- Parse one JSON value; fuel bounds the nesting recursion. -/
def parseJ : Nat → List Char → Option (JVal × List Char)
  | 0, _ => none
  | fuel + 1, cs =>
    match skipWs cs with
    | [] => none
    | c :: r =>
      if c == '"' then
        match scanStr r with
        | some (s, rest) => some (.jstr (String.mk s), rest)
        | none => none
      else if c == '[' then
        match skipWs r with
        | ']' :: rest => some (.jarr [], rest)
        | r2 => match parseJItems fuel r2 with
          | some (l, rest) => some (.jarr l, rest)
          | none => none
      else if c == lbrace then
        match skipWs r with
        | r2 =>
          if r2.head? == some rbrace then some (.jobj [], r2.tail)
          else match parseJMembers fuel r2 with
            | some (l, rest) => some (.jobj l, rest)
            | none => none
      else if c == 't' then
        if listIsPrefix ['r', 'u', 'e'] r then some (.jbool true, r.drop 3) else none
      else if c == 'f' then
        if listIsPrefix ['a', 'l', 's', 'e'] r then some (.jbool false, r.drop 4) else none
      else if c == 'n' then
        if listIsPrefix ['u', 'l', 'l'] r then some (.jnull, r.drop 3) else none
      else if c == '-' || c.isDigit then
        let body := if c == '-' then r else c :: r
        let ds := body.takeWhile Char.isDigit
        if ds.isEmpty then none
        else
          let n : Int := ds.foldl (fun a d => a * 10 + (d.toNat - 48 : Int)) 0
          some (.jnum (if c == '-' then -n else n), body.drop ds.length)
      else none

/-- Parse the comma-separated items of a JSON array, after the opening bracket. -/
def parseJItems : Nat → List Char → Option (List JVal × List Char)
  | 0, _ => none
  | fuel + 1, cs =>
    match parseJ fuel cs with
    | none => none
    | some (v, rest) =>
      match skipWs rest with
      | ',' :: r2 =>
        match parseJItems fuel r2 with
        | some (l, rest2) => some (v :: l, rest2)
        | none => none
      | c :: r2 => if c == ']' then some ([v], r2) else none
      | [] => none

/-- Parse the comma-separated members of a JSON object, after the opening brace. -/
def parseJMembers : Nat → List Char → Option (List (String × JVal) × List Char)
  | 0, _ => none
  | fuel + 1, cs =>
    match skipWs cs with
    | c :: r =>
      if c == '"' then
        match scanStr r with
        | some (k, rest) =>
          match skipWs rest with
          | ':' :: r2 =>
            match parseJ fuel r2 with
            | some (v, rest2) =>
              match skipWs rest2 with
              | ',' :: r3 =>
                match parseJMembers fuel r3 with
                | some (l, rest3) => some ((String.mk k, v) :: l, rest3)
                | none => none
              | d :: r3 =>
                if d == rbrace then some ([(String.mk k, v)], r3) else none
              | [] => none
            | none => none
          | _ => none
        | none => none
      else none
    | [] => none
end

/-- Model of Python json.loads on the fragment above: some v when the whole
input parses as one JSON value, none when json.loads would raise. -/
def loads (s : String) : Option JVal :=
  match parseJ (s.data.length + 2) s.data with
  | some (v, rest) => if (skipWs rest).isEmpty then some v else none
  | none => none

/-! ## AnalyticsService: pure functions
Embedded from src/backend/app/services/analytics_service.py. -/

/-- Keyword set checked first by the classifier. -/
def trendKeywords : List String := ["trend", "over time", "timeline", "change", "growth"]

/-- Keyword set checked second by the classifier. -/
def comparisonKeywords : List String := ["compare", "vs", "versus", "difference", "between"]

/-- Keyword set checked third by the classifier. -/
def summaryKeywords : List String := ["summary", "overview", "summarize", "total", "average"]

/-- Keyword set checked fourth by the classifier. -/
def predictionKeywords : List String := ["predict", "forecast", "future", "projection"]

/-- AnalyticsService.classify_query_type: keyword classification of the
lower-cased query, first matching set wins, defaulting to general. -/
def classify_query_type (query : String) : String :=
  let query_lower := pyLower query
  if containsAny query_lower trendKeywords then "trend_analysis"
  else if containsAny query_lower comparisonKeywords then "comparison"
  else if containsAny query_lower summaryKeywords then "summary"
  else if containsAny query_lower predictionKeywords then "prediction"
  else "general"

/-- Numeric coercion of one parsed table cell: strip the value, remove commas
and dollar signs, attempt float conversion, otherwise keep the stripped text.
Embeds the value-conversion block of AnalyticsService parse_table_content. -/
def coerceValue (value : String) : PyVal :=
  match parseFloat (pyReplace (pyReplace (pyStrip value) "," "") "$" "") with
  | some q => .vnum q
  | none => .vstr (pyStrip value)

/-- Dictionary insertion preserving first-insertion order, as in Python. -/
def dictInsert (r : Rcd) (k : String) (v : PyVal) : Rcd :=
  if r.any (fun p => p.1 == k) then
    r.map (fun p => if p.1 == k then (k, v) else p)
  else r ++ [(k, v)]

/-- Build one record from the pipe-separated segments of a line: every segment
containing a colon contributes key (before the first colon, stripped) mapped to
the coerced value (the rest). -/
def buildRecord (parts : List String) : Rcd :=
  parts.foldl
    (fun record part =>
      if pyContains part ":" then
        match pySplit part ":" with
        | [] => record
        | key :: restParts =>
          dictInsert record (pyStrip key) (coerceValue (pyJoinList ":" restParts))
      else record)
    []

/-- AnalyticsService parse_table_content: scan the lines of the text, and for
every line containing a pipe with at least two segments build a record from its
colon-bearing segments, keeping non-empty records. -/
def parse_table_content (content : String) : List Rcd :=
  (pySplit content "\n").foldl
    (fun data line =>
      if pyContains line "|" then
        let parts := (pySplit line "|").map pyStrip
        if parts.length ≥ 2 then
          let record := buildRecord parts
          if record.isEmpty then data else data ++ [record]
        else data
      else data)
    []

/-- Metadata carried by a table document under the table_data key:
absent, a list of row records, or present but not a list. -/
inductive TableMeta where
  | missing
  | rows (l : List Rcd)
  | notList

/-- A retrieved document: content text plus the metadata consumed by the
embedded code (content type, optional page number, optional structured rows). -/
structure Document where
  page_content : String
  content_type : String
  page_number : Option Int
  table_meta : TableMeta

/-- AnalyticsService.extract_table_data: concatenate the structured rows of
each document when its metadata carries a list under table_data; a non-list
value contributes nothing; with no table_data key the text content is parsed. -/
def extract_table_data (table_docs : List Document) : List Rcd :=
  table_docs.foldl
    (fun all_data doc =>
      match doc.table_meta with
      | .rows l => all_data ++ l
      | .notList => all_data
      | .missing => all_data ++ parse_table_content doc.page_content)
    []

/-- Impact keywords of the insight-extraction fallback. -/
def impactKeywords : List String :=
  ["increase", "decrease", "trend", "significant", "growth", "decline",
   "improvement", "higher", "lower"]

/-- Loop of the fallback: append qualifying sentences, stopping at five. -/
def fallbackLoop : List String → List String → List String
  | [], acc => acc
  | s :: rest, acc =>
    let s := pyStrip s
    if s.length > 20 ∧ containsAny (pyLower s) impactKeywords then
      let acc := acc ++ [s ++ (if pyEndsWith s "." then "" else ".")]
      if acc.length ≥ 5 then acc else fallbackLoop rest acc
    else fallbackLoop rest acc

/-- AnalyticsService extract_insights_fallback: keep sentences of the analysis
longer than 20 characters containing an impact keyword, re-terminated with a
period, capped at five. -/
def extract_insights_fallback (analysis : String) : List String :=
  (fallbackLoop (pySplit analysis ". ") []).take 5

/-! ## Collaborators: search results and the oracle -/

/-- Result of Retrieval.search: a mapping from content type to documents. -/
abbrev SearchResults := List (String × List Document)

/-- Model of Python mapping.get(ct, []). -/
def getDocs (res : SearchResults) (ct : String) : List Document :=
  match res.find? (fun p => p.1 == ct) with
  | some p => p.2
  | none => []

/-- One behavior of the external collaborators, covering every call site of the
analytics workflow that can raise.  classify models the outcome of the call to
AnalyticsService.classify_query_type (Except.error e models the exception
branch of the stage); search models
MultimodalVectorStoreService.search_multimodal (query, content types, k per
type); generate models AdvancedLLMService.generate_response on a prompt;
analyzeTrends models the composite call AnalyticsService.analyze_trends (query,
time_series_analysis=True), whose value depends only on the Retrieval
collaborator and which issues no Generation call (see analytics_service.py),
abstracted to the str of the returned trends dict; generateChart models
ChartGenerator.generate_chart_from_query on query and table documents, with
the returned mapping modelled as a key-value list and an empty list for a
falsy result. -/
structure Oracle where
  classify : String → Except String String
  search : String → List String → Nat → Except String SearchResults
  generate : String → Except String String
  analyzeTrends : String → Except String String
  generateChart : String → List Document → Except String (List (String × JVal))

/-! ## The analytics workflow state
Embedded from src/backend/langchain_server/graphs/analytics_graph.py.  Of the
processed_data dict only the analysis entry is read by later stages and by the
caller, so the state stores it as an Option (none models an absent key); the
statistics and summary entries are write-only and dropped.  insights and
recommendations hold JSON values because a parsed JSON array is stored as-is. -/

structure AnalyticsState where
  query : String
  analysis_type : String
  raw_data : List Rcd
  processed_analysis : Option String
  insights : List JVal
  charts : List (String × JVal)
  recommendations : List JVal
  confidence : ℚ
  error : String

/-- Output of one stage: the updated state, the prompts passed to the
Generation collaborator, and the calls issued to the Chart collaborator. -/
structure StageOut where
  state : AnalyticsState
  prompts : List String
  chartCalls : List (String × List Document)

/-! ### Prompt texts (exact transcriptions of the f-strings) -/

/-- Union of the record keys, as list(set().union(*(d.keys() for d in data))).
Python iterates the set in an unspecified order; modelled in first-occurrence
order. -/
def unionKeys (data : List Rcd) : List String :=
  data.foldl
    (fun acc r =>
      r.foldl (fun acc p => if acc.contains p.1 then acc else acc ++ [p.1]) acc)
    []

/-- Model of Python repr of a list of strings. -/
def pyStrListRepr (l : List String) : String :=
  "[" ++ pyJoinList ", " (l.map (fun s => sq ++ s ++ sq)) ++ "]"

/-- Model of the repr of the dict built by AnalyticsGraph calculate_basic_stats:
total_records, columns and sample_record, or the empty dict for no data. -/
def graphBasicStatsRepr (data : List Rcd) : String :=
  if data.isEmpty then "\x7b\x7d"
  else
    "\x7b" ++ sq ++ "total_records" ++ sq ++ ": " ++ toString data.length ++
    ", " ++ sq ++ "columns" ++ sq ++ ": " ++ pyStrListRepr (unionKeys data) ++
    ", " ++ sq ++ "sample_record" ++ sq ++ ": " ++
    (match data with | r :: _ => pyRecordRepr r | [] => "\x7b\x7d") ++ "\x7d"

/-- The comparison_prompt f-string of AnalyticsGraph process_comparison_data. -/
def comparisonPrompt (query : String) (data : List Rcd) : String :=
  "\n        Perform a comparative analysis based on this query: " ++ query ++
  "\n        \n        Data available: " ++ toString data.length ++
  " records\n        Sample: " ++
  (if data.isEmpty then "No data" else pyRecordsRepr (data.take 3)) ++
  "\n        \n        Identify:\n        1. Key metrics being compared\n        2. Significant differences\n        3. Performance rankings\n        4. Statistical significance\n        "

/-- The summary_prompt f-string of AnalyticsGraph process_summary_data. -/
def summaryPrompt (query : String) (data : List Rcd) : String :=
  "\n        Create a comprehensive summary for: " ++ query ++
  "\n        \n        Data overview:\n        - Records: " ++ toString data.length ++
  "\n        - Statistics: " ++ graphBasicStatsRepr data ++
  "\n        \n        Provide:\n        1. Key highlights\n        2. Important patterns\n        3. Notable findings\n        4. Overall assessment\n        "

/-- The general_prompt f-string of AnalyticsGraph process_general_data. -/
def generalPrompt (query : String) (data : List Rcd) : String :=
  "\n        Analyze the data to answer: " ++ query ++
  "\n        \n        Available data: " ++ toString data.length ++
  " records\n        Sample data: " ++
  (if data.isEmpty then "No data" else pyRecordsRepr (data.take 5)) ++
  "\n        \n        Provide a thorough analysis addressing the query.\n        "

/-- The insights_prompt f-string of AnalyticsService.extract_insights. -/
def insightsPrompt (analysis : String) (dataLen : Nat) : String :=
  "\n        Extract 3-5 key actionable insights from this analysis:\n        \n        Analysis: " ++
  analysis ++
  "\n        \n        Data points: " ++ toString dataLen ++
  "\n        \n        Return insights as a JSON array of strings. Each insight should be:\n        1. Specific and actionable\n        2. Based on the data\n        3. Business-relevant\n        4. Concise (1-2 sentences)\n        \n        Example format:\n        [\"Revenue increased by 15% year-over-year\", \"Q4 showed strongest growth at 23%\"]\n        "

/-- The recommendations_prompt f-string of AnalyticsGraph
formulate_recommendations. -/
def recommendationsPrompt (analysis_type analysis joined : String) : String :=
  "\n            Based on this " ++ analysis_type ++
  " analysis, provide 3-5 actionable recommendations:\n            \n            Analysis: " ++
  analysis ++
  "\n            \n            Key Insights: " ++ joined ++
  "\n            \n            Provide specific, actionable recommendations that:\n            1. Address the findings\n            2. Are practical to implement\n            3. Have clear business value\n            4. Are prioritized by impact\n            \n            Return as a JSON array of strings.\n            "

/-! ### Stage functions -/

/-- AnalyticsGraph classify_query stage: record the classification, or on an
exception record the prefixed error message and leave the type unchanged. -/
def classifyStage (o : Oracle) (s : AnalyticsState) : StageOut :=
  match o.classify s.query with
  | .ok t => ⟨{ s with analysis_type := t }, [], []⟩
  | .error e => ⟨{ s with error := "Query classification failed: " ++ e }, [], []⟩

/-- AnalyticsGraph gather_data stage: choose content types and k from the
analysis type, search, and extract the table rows of the table documents. -/
def gatherStage (o : Oracle) (s : AnalyticsState) : StageOut :=
  let ctk : List String × Nat :=
    if s.analysis_type = "trend_analysis" ∨ s.analysis_type = "comparison" then
      (["table", "text"], 15)
    else if s.analysis_type = "summary" then (["text", "table", "image"], 10)
    else (["text", "table"], 8)
  match o.search s.query ctk.1 ctk.2 with
  | .ok results =>
    ⟨{ s with raw_data := extract_table_data (getDocs results "table") }, [], []⟩
  | .error e => ⟨{ s with error := "Data gathering failed: " ++ e }, [], []⟩

/-- AnalyticsGraph process_data stage: with no raw data, short-circuit to the
fixed no-data analysis; otherwise dispatch on the analysis type.  The trend
branch delegates to AnalyticsService.analyze_trends and formats its result
without a Generation call; the other three branches send their type-specific
prompt to the Generation collaborator and store its response as the analysis. -/
def processDataStage (o : Oracle) (s : AnalyticsState) : StageOut :=
  if s.raw_data.isEmpty then
    ⟨{ s with processed_analysis := some "No relevant data found for analysis." }, [], []⟩
  else if s.analysis_type = "trend_analysis" then
    match o.analyzeTrends s.query with
    | .ok tr =>
      ⟨{ s with processed_analysis := some ("Trend analysis reveals: " ++ tr) }, [], []⟩
    | .error e => ⟨{ s with error := "Data processing failed: " ++ e }, [], []⟩
  else if s.analysis_type = "comparison" then
    let prompt := comparisonPrompt s.query s.raw_data
    match o.generate prompt with
    | .ok analysis => ⟨{ s with processed_analysis := some analysis }, [prompt], []⟩
    | .error e => ⟨{ s with error := "Data processing failed: " ++ e }, [prompt], []⟩
  else if s.analysis_type = "summary" then
    let prompt := summaryPrompt s.query s.raw_data
    match o.generate prompt with
    | .ok analysis => ⟨{ s with processed_analysis := some analysis }, [prompt], []⟩
    | .error e => ⟨{ s with error := "Data processing failed: " ++ e }, [prompt], []⟩
  else
    let prompt := generalPrompt s.query s.raw_data
    match o.generate prompt with
    | .ok analysis => ⟨{ s with processed_analysis := some analysis }, [prompt], []⟩
    | .error e => ⟨{ s with error := "Data processing failed: " ++ e }, [prompt], []⟩

/-- AnalyticsGraph generate_insights stage: when the processed dict carries an
analysis entry, delegate to AnalyticsService.extract_insights (prompt the
Generation collaborator, take a parsed JSON array as-is, wrap a non-list JSON
value as the single raw response, and on a parse failure fall back to sentence
scanning); otherwise set the fixed no-insights message. -/
def generateInsightsStage (o : Oracle) (s : AnalyticsState) : StageOut :=
  match s.processed_analysis with
  | some analysis =>
    let prompt := insightsPrompt analysis s.raw_data.length
    match o.generate prompt with
    | .ok response =>
      let insights : List JVal :=
        match loads response with
        | some (.jarr l) => l
        | some _ => [.jstr response]
        | none => (extract_insights_fallback analysis).map .jstr
      ⟨{ s with insights := insights }, [prompt], []⟩
    | .error e => ⟨{ s with error := "Insight generation failed: " ++ e }, [prompt], []⟩
  | none =>
    ⟨{ s with insights := [.jstr "No insights could be generated from the available data."] }, [], []⟩

/-- The synthetic table document wrapped around raw_data by the visualization
stage: content is the repr of the first five records, metadata carries the full
rows and page number 1. -/
def syntheticTableDoc (raw_data : List Rcd) : Document :=
  { page_content := "Table data: " ++ pyRecordsRepr (raw_data.take 5)
    content_type := "table"
    page_number := some 1
    table_meta := .rows raw_data }

/-- AnalyticsGraph create_visualizations stage: only for trend_analysis or
comparison with non-empty raw data, wrap the rows into one synthetic table
document and call the Chart collaborator; a falsy result leaves the chart
empty, and an exception records the error and leaves the chart field of the
state untouched. -/
def createVisualizationsStage (o : Oracle) (s : AnalyticsState) : StageOut :=
  if ¬ s.raw_data.isEmpty ∧
      (s.analysis_type = "trend_analysis" ∨ s.analysis_type = "comparison") then
    let table_docs := [syntheticTableDoc s.raw_data]
    match o.generateChart s.query table_docs with
    | .ok chart_result =>
      ⟨{ s with charts := if chart_result.isEmpty then [] else chart_result },
        [], [(s.query, table_docs)]⟩
    | .error e =>
      ⟨{ s with error := "Visualization creation failed: " ++ e }, [],
        [(s.query, table_docs)]⟩
  else ⟨{ s with charts := [] }, [], []⟩

/-- String extraction from a JSON value, used to model str.join typing. -/
def jvalAsString : JVal → Option String
  | .jstr s => some s
  | _ => none

/-- Model of Python sep.join(items) on JSON values: succeeds when every item is
a string, and models the TypeError raised by str.join otherwise. -/
def pyJoinJVals (sep : String) (l : List JVal) : Except String String :=
  match l.mapM jvalAsString with
  | some strs => .ok (pyJoinList sep strs)
  | none => .error "sequence item: expected str instance"

/-- AnalyticsGraph formulate_recommendations stage: build the prompt (joining
the insights raises inside the f-string when an insight is not a string), send
it to the Generation collaborator, take a parsed JSON array as-is, wrap a
non-list JSON value as the single raw response, and on a parse failure keep the
stripped non-empty response lines longer than 10 characters, capped at five. -/
def formulateRecommendationsStage (o : Oracle) (s : AnalyticsState) : StageOut :=
  let analysis := s.processed_analysis.getD ""
  match pyJoinJVals "; " s.insights with
  | .error e => ⟨{ s with error := "Recommendation generation failed: " ++ e }, [], []⟩
  | .ok joined =>
    let prompt := recommendationsPrompt s.analysis_type analysis joined
    match o.generate prompt with
    | .ok response =>
      let recommendations : List JVal :=
        match loads response with
        | some (.jarr l) => l
        | some _ => [.jstr response]
        | none =>
          ((((pySplit response "\n").map pyStrip).filter
              (fun line => ¬ line.isEmpty)).filter
            (fun rec => rec.length > 10)).take 5 |>.map .jstr
      ⟨{ s with recommendations := recommendations }, [prompt], []⟩
    | .error e =>
      ⟨{ s with error := "Recommendation generation failed: " ++ e }, [prompt], []⟩

/-- AnalyticsGraph calculate_confidence stage: base 0.5, stepped bonuses for
data volume, analysis length, insight count, a non-empty chart and the
analysis type, capped at 1.0.  No collaborator is called and no exception can
occur, so the exception branch of the source is dead in the model. -/
def calculateConfidenceStage (s : AnalyticsState) : StageOut :=
  let confidence : ℚ := 0.5
  let confidence :=
    if s.raw_data.length > 50 then confidence + 0.2
    else if s.raw_data.length > 20 then confidence + 0.1
    else confidence
  let confidence :=
    if (s.processed_analysis.getD "").length > 200 then confidence + 0.1 else confidence
  let confidence := if s.insights.length ≥ 3 then confidence + 0.1 else confidence
  let confidence := if ¬ s.charts.isEmpty then confidence + 0.1 else confidence
  let confidence :=
    if s.analysis_type = "trend_analysis" ∨ s.analysis_type = "summary" then
      confidence + 0.05
    else confidence
  ⟨{ s with confidence := min 1.0 confidence }, [], []⟩

/-- AnalyticsGraph handle_error stage: the fixed fallback response.  The error
key is always present in this workflow state, so state.get returns it. -/
def handleErrorStage (s : AnalyticsState) : StageOut :=
  let error_msg := s.error
  ⟨{ s with
      processed_analysis :=
        some ("Analytics processing encountered an error: " ++ error_msg)
      insights := [.jstr "Analysis could not be completed due to technical issues."]
      charts := []
      recommendations := [.jstr "Please try rephrasing your query or contact support."]
      confidence := 0.1 }, [], []⟩

/-- AnalyticsGraph should_continue_after_classification: route on the
truthiness of the error entry. -/
def should_continue_after_classification (s : AnalyticsState) : String :=
  if s.error ≠ "" then "error" else "continue"

/-! ### Graph execution -/

/-- The nodes of the analytics workflow graph. -/
inductive Node where
  | classify_query
  | gather_data
  | process_data
  | generate_insights
  | create_visualizations
  | formulate_recommendations
  | calculate_confidence
  | handle_error
deriving DecidableEq

/-- Result of one full graph run: final state, the sequence of executed nodes,
and the accumulated collaborator calls. -/
structure RunOut where
  state : AnalyticsState
  trace : List Node
  prompts : List String
  chartCalls : List (String × List Document)

/-- Execution of the compiled graph of AnalyticsGraph build_graph: entry at
classify_query, one conditional edge routing to handle_error exactly when
should_continue_after_classification answers error, otherwise the fixed linear
chain through calculate_confidence. -/
def runGraph (o : Oracle) (s0 : AnalyticsState) : RunOut :=
  let r1 := classifyStage o s0
  if should_continue_after_classification r1.state = "error" then
    let r2 := handleErrorStage r1.state
    ⟨r2.state, [.classify_query, .handle_error], r1.prompts ++ r2.prompts,
      r1.chartCalls ++ r2.chartCalls⟩
  else
    let r2 := gatherStage o r1.state
    let r3 := processDataStage o r2.state
    let r4 := generateInsightsStage o r3.state
    let r5 := createVisualizationsStage o r4.state
    let r6 := formulateRecommendationsStage o r5.state
    let r7 := calculateConfidenceStage r6.state
    ⟨r7.state,
      [.classify_query, .gather_data, .process_data, .generate_insights,
       .create_visualizations, .formulate_recommendations, .calculate_confidence],
      r1.prompts ++ r2.prompts ++ r3.prompts ++ r4.prompts ++ r5.prompts ++
        r6.prompts ++ r7.prompts,
      r1.chartCalls ++ r2.chartCalls ++ r3.chartCalls ++ r4.chartCalls ++
        r5.chartCalls ++ r6.chartCalls ++ r7.chartCalls⟩

/-- The result object returned to the caller. -/
structure AnalyticsResult where
  query : String
  analysis_type : String
  analysis : String
  insights : List JVal
  charts : List (String × JVal)
  recommendations : List JVal
  confidence : ℚ
  data_points : Nat
  error : String

/-- Model of the Python expression analysis_type or "" on an optional string. -/
def pyOrEmpty (o : Option String) : String :=
  match o with
  | some s => if s.isEmpty then "" else s
  | none => ""

/-- The fresh per-request state built by process_analytics_query. -/
def initialState (query : String) (analysis_type : Option String) : AnalyticsState :=
  { query := query
    analysis_type := pyOrEmpty analysis_type
    raw_data := []
    processed_analysis := none
    insights := []
    charts := []
    recommendations := []
    confidence := 0.0
    error := "" }

/-- AnalyticsGraph.process_analytics_query: run the graph on a fresh state and
repackage the final state for the caller.  The surrounding try/except of the
source cannot fire because the embedded graph execution is a total function,
so its fallback branch is dead in the model and no exception reaches the
caller. -/
def process_analytics_query (o : Oracle) (query : String)
    (analysis_type : Option String) : AnalyticsResult :=
  let result := (runGraph o (initialState query analysis_type)).state
  { query := query
    analysis_type := result.analysis_type
    analysis := result.processed_analysis.getD ""
    insights := result.insights
    charts := result.charts
    recommendations := result.recommendations
    confidence := result.confidence
    data_points := result.raw_data.length
    error := result.error }

/-! ## RAG workflow: the analyze_query stage
Embedded from src/backend/langchain_server/graphs/rag_graph.py. -/

/-- Keywords that add table to the content types. -/
def ragTableKeywords : List String :=
  ["table", "data", "statistics", "numbers", "trend", "chart"]

/-- Keywords that add image to the content types. -/
def ragImageKeywords : List String :=
  ["image", "figure", "diagram", "photo", "picture"]

/-- Keywords that set requires_charts. -/
def ragChartKeywords : List String := ["trend", "chart", "graph", "visualization"]

/-- The metadata written by the analyze_query stage. -/
structure RagQueryMetadata where
  content_types : List String
  requires_charts : Bool

/-- MultimodalRAGGraph analyze_query: lower-case the query, always search text,
add table and image on their keyword sets, and set requires_charts on its
keyword set. -/
def rag_analyze_query (query0 : String) : RagQueryMetadata :=
  let query := pyLower query0
  let content_types := ["text"]
  let content_types :=
    if containsAny query ragTableKeywords then content_types ++ ["table"]
    else content_types
  let content_types :=
    if containsAny query ragImageKeywords then content_types ++ ["image"]
    else content_types
  { content_types := content_types
    requires_charts := containsAny query ragChartKeywords }

/-! ## Spec-side definitions (from the words of the specification) -/

/-- Modelled from the spec, for refinement comparison only: the Confidence
Scorer formula of section 4.5 - base 0.5, add 0.2 if more than 50 records else
0.1 if more than 20, add 0.1 for a narrative longer than 200 characters, add
0.1 for at least 3 insights, add 0.1 for a non-empty chart, add 0.05 for
trend_analysis or summary, clamped to the unit interval. -/
def specConfidenceScore (rawLen narrativeLen insightsLen : Nat)
    (chartNonempty : Bool) (analysis_type : String) : ℚ :=
  let total : ℚ := 0.5 +
    (if rawLen > 50 then 0.2 else if rawLen > 20 then 0.1 else 0) +
    (if narrativeLen > 200 then 0.1 else 0) +
    (if insightsLen ≥ 3 then 0.1 else 0) +
    (if chartNonempty then 0.1 else 0) +
    (if analysis_type = "trend_analysis" ∨ analysis_type = "summary" then 0.05 else 0)
  max 0 (min 1 total)

/-! ## Concrete collaborator behaviors and states used as test inputs -/

/-- A behavior whose Generation collaborator always answers a valid JSON array
of six strings and whose Retrieval collaborator finds nothing. -/
def genArrOracle : Oracle :=
  { classify := fun _ => .ok "general"
    search := fun _ _ _ => .ok []
    generate := fun _ => .ok "[\"a\", \"b\", \"c\", \"d\", \"e\", \"f\"]"
    analyzeTrends := fun _ => .ok ""
    generateChart := fun _ _ => .error "boom" }

/-- A behavior whose classification call raises. -/
def errOracle : Oracle :=
  { classify := fun _ => .error "boom"
    search := fun _ _ _ => .ok []
    generate := fun _ => .ok ""
    analyzeTrends := fun _ => .ok ""
    generateChart := fun _ _ => .ok [] }

/-- A behavior classifying as comparison, retrieving one table document with
one structured row, answering one-string JSON arrays, and whose chart
collaborator raises. -/
def chartFailOracle : Oracle :=
  { classify := fun _ => .ok "comparison"
    search := fun _ _ _ => .ok [("table",
        [{ page_content := ""
           content_type := "table"
           page_number := none
           table_meta := .rows [[("region", .vstr "east"), ("sales", .vstr "10")]] }])]
    generate := fun _ => .ok "[\"Sales differ significantly across regions.\"]"
    analyzeTrends := fun _ => .ok ""
    generateChart := fun _ _ => .error "chart service down" }

/-- A behavior whose trend-analysis composite returns the word rising and whose
Generation collaborator answers plain text. -/
def trendOracle : Oracle :=
  { classify := fun _ => .ok "trend_analysis"
    search := fun _ _ _ => .ok []
    generate := fun _ => .ok "plain text"
    analyzeTrends := fun _ => .ok "rising"
    generateChart := fun _ _ => .ok [] }

/-- A mid-run state classified as trend_analysis carrying one record. -/
def trendState : AnalyticsState :=
  { query := "show the revenue trend"
    analysis_type := "trend_analysis"
    raw_data := [[("year", .vstr "2020"), ("revenue", .vstr "100")]]
    processed_analysis := none
    insights := []
    charts := []
    recommendations := []
    confidence := 0
    error := "" }

/-- A mid-run state classified as general carrying one record and a narrative. -/
def generalState : AnalyticsState :=
  { query := "what happened"
    analysis_type := "general"
    raw_data := [[("metric", .vstr "value")]]
    processed_analysis := some "The metric shows a significant increase in value across periods."
    insights := [.jstr "The metric increased."]
    charts := []
    recommendations := []
    confidence := 0
    error := "" }

/-! ## Helper lemmas -/

/-- A list is a prefix of itself followed by anything. -/
theorem listIsPrefix_self_append (n b : List Char) : listIsPrefix n (n ++ b) = true := by
  induction n with
  | nil => rfl
  | cons c t ih => simp [listIsPrefix, ih]

/-- The substring test finds a needle placed between two context lists. -/
theorem listIsInfix_append (a n b : List Char) : listIsInfix n (a ++ n ++ b) = true := by
  induction a with
  | nil =>
    rw [List.nil_append]
    cases h : n ++ b with
    | nil =>
      have hn : n = [] := (List.append_eq_nil.mp h).1
      rw [hn]
      rfl
    | cons c t =>
      show (listIsPrefix n (c :: t) || listIsInfix n t) = true
      rw [← h, listIsPrefix_self_append, Bool.true_or]
  | cons c t ih =>
    show (listIsPrefix n (c :: (t ++ n ++ b)) || listIsInfix n (t ++ n ++ b)) = true
    rw [ih, Bool.or_true]

/-- Python substring containment holds for any needle assembled between two
context strings. -/
theorem pyContains_parts (p x y z : String) (h : p = x ++ y ++ z) :
    pyContains p y = true := by
  subst h
  show listIsInfix y.data (x ++ y ++ z).data = true
  rw [String.data_append, String.data_append]
  exact listIsInfix_append _ _ _

/-- Appending to a non-empty string stays non-empty. -/
theorem strAppend_ne_empty (a b : String) (h : a ≠ "") : a ++ b ≠ "" := by
  intro hc
  apply h
  apply String.ext
  have hd : (a ++ b).data = String.data "" := congrArg String.data hc
  rw [String.data_append] at hd
  have hnil : a.data ++ b.data = [] := hd
  exact (List.append_eq_nil.mp hnil).1

/-- The confidence computed by the final stage always lies in the unit
interval. -/
theorem calc_confidence_bounds (s : AnalyticsState) :
    0 ≤ (calculateConfidenceStage s).state.confidence ∧
      (calculateConfidenceStage s).state.confidence ≤ 1 := by
  simp only [calculateConfidenceStage]
  constructor
  · apply le_min
    · norm_num
    · split_ifs <;> norm_num
  · have h := min_le_left (1.0 : ℚ)
    calc (min 1.0 _ : ℚ) ≤ 1.0 := h _
    _ = 1 := by norm_num

/-- Clamping a non-negative value to the unit interval is capping at one. -/
theorem clamp_eq_of_nonneg (c : ℚ) (h : 0 ≤ c) : max 0 (min 1 c) = min 1 c :=
  max_eq_right (le_min (by norm_num) h)

set_option maxHeartbeats 1000000 in
/-- The stepped-bonus chain of the confidence stage, over plain variables,
equals the clamped sum of the specification formula. -/
theorem confFormulaAux (rawLen narLen insLen : Nat) (chEmpty : Bool) (t : String) :
    (min 1.0
      (let c0 : ℚ := 0.5
       let c1 := if rawLen > 50 then c0 + 0.2 else if rawLen > 20 then c0 + 0.1 else c0
       let c2 := if narLen > 200 then c1 + 0.1 else c1
       let c3 := if insLen ≥ 3 then c2 + 0.1 else c2
       let c4 := if ¬ chEmpty then c3 + 0.1 else c3
       if t = "trend_analysis" ∨ t = "summary" then c4 + 0.05 else c4)) =
    specConfidenceScore rawLen narLen insLen (!chEmpty) t := by
  simp only [specConfidenceScore]
  rw [clamp_eq_of_nonneg]
  · rw [show (1.0 : ℚ) = 1 by norm_num]
    congr 1
    cases chEmpty <;> simp only [Bool.not_true, Bool.not_false] <;>
      split_ifs <;> (try contradiction) <;> norm_num
  · split_ifs <;> norm_num

/-! ## Claim theorems -/

/-- C5: the Query Classifier is a pure, deterministic function of the
lower-cased query text; it tests the keyword sets in the fixed priority order
trend_analysis, comparison, summary, prediction with first match winning and
default general; the query about a trend over time versus last year classifies
as trend_analysis because trend keywords are checked before comparison
keywords. -/
theorem classify_query_type_spec :
    classify_query_type "trend over time vs last year" = "trend_analysis" ∧
    (∀ q₁ q₂ : String, q₁ = q₂ → classify_query_type q₁ = classify_query_type q₂) ∧
    (∀ q, containsAny (pyLower q) trendKeywords = true →
        classify_query_type q = "trend_analysis") ∧
    (∀ q, containsAny (pyLower q) trendKeywords = false →
        containsAny (pyLower q) comparisonKeywords = true →
        classify_query_type q = "comparison") ∧
    (∀ q, containsAny (pyLower q) trendKeywords = false →
        containsAny (pyLower q) comparisonKeywords = false →
        containsAny (pyLower q) summaryKeywords = true →
        classify_query_type q = "summary") ∧
    (∀ q, containsAny (pyLower q) trendKeywords = false →
        containsAny (pyLower q) comparisonKeywords = false →
        containsAny (pyLower q) summaryKeywords = false →
        containsAny (pyLower q) predictionKeywords = true →
        classify_query_type q = "prediction") ∧
    (∀ q, containsAny (pyLower q) trendKeywords = false →
        containsAny (pyLower q) comparisonKeywords = false →
        containsAny (pyLower q) summaryKeywords = false →
        containsAny (pyLower q) predictionKeywords = false →
        classify_query_type q = "general") := by
  refine ⟨by decide, fun q₁ q₂ h => by rw [h], ?_, ?_, ?_, ?_, ?_⟩ <;>
    intro q <;> intros <;> simp_all [classify_query_type]

/-- Witness for C5 at a concrete comparison query. -/
theorem classify_query_type_spec_witness :
    classify_query_type "compare apples and oranges" = "comparison" :=
  classify_query_type_spec.2.2.2.1 "compare apples and oranges"
    (by decide) (by decide)

/-- C9: the RAG analyze-query stage is a pure function of the query text; the
selected content types are exactly text, plus table exactly when the
lower-cased query contains a table keyword, plus image exactly when it
contains an image keyword; requires_charts holds exactly when it contains a
chart keyword. -/
theorem rag_analyze_query_spec (q : String) :
    (rag_analyze_query q).content_types =
      ["text"] ++
        (if containsAny (pyLower q) ragTableKeywords then ["table"] else []) ++
        (if containsAny (pyLower q) ragImageKeywords then ["image"] else []) ∧
    ("text" ∈ (rag_analyze_query q).content_types) ∧
    ("table" ∈ (rag_analyze_query q).content_types ↔
      containsAny (pyLower q) ragTableKeywords = true) ∧
    ("image" ∈ (rag_analyze_query q).content_types ↔
      containsAny (pyLower q) ragImageKeywords = true) ∧
    (rag_analyze_query q).requires_charts = containsAny (pyLower q) ragChartKeywords := by
  cases h1 : containsAny (pyLower q) ragTableKeywords <;>
    cases h2 : containsAny (pyLower q) ragImageKeywords <;>
      simp [rag_analyze_query, h1, h2]

/-- C3: for every state reaching the confidence stage, the resulting confidence
equals the clamp to the unit interval of the documented sum of weighted
signals, and that value is monotone non-decreasing in the number of raw
records with the other signals fixed. -/
theorem calculate_confidence_formula (s : AnalyticsState) :
    (calculateConfidenceStage s).state.confidence =
      specConfidenceScore s.raw_data.length (s.processed_analysis.getD "").length
        s.insights.length (!s.charts.isEmpty) s.analysis_type ∧
    (∀ (n₁ n₂ a b : Nat) (c : Bool) (t : String), n₁ ≤ n₂ →
      specConfidenceScore n₁ a b c t ≤ specConfidenceScore n₂ a b c t) := by
  constructor
  · exact confFormulaAux s.raw_data.length (s.processed_analysis.getD "").length
      s.insights.length s.charts.isEmpty s.analysis_type
  · intro n₁ n₂ a b c t h
    simp only [specConfidenceScore]
    have hstep : (if n₁ > 50 then (0.2 : ℚ) else if n₁ > 20 then 0.1 else 0) ≤
        (if n₂ > 50 then (0.2 : ℚ) else if n₂ > 20 then 0.1 else 0) := by
      split_ifs <;> norm_num <;> omega
    gcongr

/-- Witness for C3: monotonicity applied across the 20-record step. -/
theorem calculate_confidence_formula_witness :
    specConfidenceScore 10 0 0 false "general" ≤
      specConfidenceScore 30 0 0 false "general" :=
  (calculate_confidence_formula (initialState "q" none)).2 10 30 0 0 false
    "general" (by decide)

/-- C2: for every query and every behavior of the collaborators, including any
raising call, the workflow entry point returns a result object (it is a total
function, so no exception reaches the caller) whose confidence lies between
zero and one. -/
theorem process_analytics_query_confidence_bounds (o : Oracle) (query : String)
    (analysis_type : Option String) :
    0 ≤ (process_analytics_query o query analysis_type).confidence ∧
      (process_analytics_query o query analysis_type).confidence ≤ 1 := by
  show 0 ≤ (runGraph o (initialState query analysis_type)).state.confidence ∧
    (runGraph o (initialState query analysis_type)).state.confidence ≤ 1
  rw [runGraph]
  by_cases h : should_continue_after_classification
      (classifyStage o (initialState query analysis_type)).state = "error"
  · rw [if_pos h]
    show (0 : ℚ) ≤ 0.1 ∧ (0.1 : ℚ) ≤ 1
    norm_num
  · rw [if_neg h]
    exact calc_confidence_bounds _

/-- C1: when the classification call raises, the routing function selects the
terminal error handler, and the final result carries the fixed degraded
narrative, insights, empty chart, recommendations and confidence 0.1; the
entry point is a total function, so nothing is raised to the caller. -/
theorem classification_error_routes_to_handle_error (o : Oracle) (query : String)
    (analysis_type : Option String) (e : String)
    (h : o.classify query = .error e) :
    should_continue_after_classification
        (classifyStage o (initialState query analysis_type)).state = "error" ∧
    (process_analytics_query o query analysis_type).error =
      "Query classification failed: " ++ e ∧
    (process_analytics_query o query analysis_type).analysis =
      "Analytics processing encountered an error: " ++
        (process_analytics_query o query analysis_type).error ∧
    (process_analytics_query o query analysis_type).insights =
      [.jstr "Analysis could not be completed due to technical issues."] ∧
    (process_analytics_query o query analysis_type).charts = [] ∧
    (process_analytics_query o query analysis_type).recommendations =
      [.jstr "Please try rephrasing your query or contact support."] ∧
    (process_analytics_query o query analysis_type).confidence = 0.1 := by
  have hcs : classifyStage o (initialState query analysis_type) =
      ⟨{ initialState query analysis_type with
          error := "Query classification failed: " ++ e }, [], []⟩ := by
    simp [classifyStage, initialState, h]
  have hne : ("Query classification failed: " ++ e : String) ≠ "" :=
    strAppend_ne_empty _ _ (by decide)
  have hroute : should_continue_after_classification
      (classifyStage o (initialState query analysis_type)).state = "error" := by
    rw [hcs]
    simp [should_continue_after_classification, hne]
  have hstate : (runGraph o (initialState query analysis_type)).state =
      { initialState query analysis_type with
          error := "Query classification failed: " ++ e
          processed_analysis := some ("Analytics processing encountered an error: " ++
            ("Query classification failed: " ++ e))
          insights := [.jstr "Analysis could not be completed due to technical issues."]
          charts := []
          recommendations := [.jstr "Please try rephrasing your query or contact support."]
          confidence := 0.1 } := by
    rw [runGraph, if_pos hroute, hcs]
    rfl
  refine ⟨hroute, ?_, ?_, ?_, ?_, ?_, ?_⟩
  · show (runGraph o (initialState query analysis_type)).state.error = _
    rw [hstate]
  · show (runGraph o (initialState query analysis_type)).state.processed_analysis.getD "" =
      "Analytics processing encountered an error: " ++
        (runGraph o (initialState query analysis_type)).state.error
    rw [hstate]
    rfl
  · show (runGraph o (initialState query analysis_type)).state.insights = _
    rw [hstate]
  · show (runGraph o (initialState query analysis_type)).state.charts = _
    rw [hstate]
  · show (runGraph o (initialState query analysis_type)).state.recommendations = _
    rw [hstate]
  · show (runGraph o (initialState query analysis_type)).state.confidence = _
    rw [hstate]

/-- Witness for C1 at a concrete raising classifier. -/
theorem classification_error_witness :
    (process_analytics_query errOracle "some query" none).confidence = 0.1 :=
  (classification_error_routes_to_handle_error errOracle "some query" none "boom"
    rfl).2.2.2.2.2.2

/-- C10: whenever the classification call completes without raising, the error
handler never executes - the trace is exactly the seven normal stages - and,
as the concrete chart-failure behavior shows, a later stage that catches an
internal exception writes a non-empty error while all remaining stages still
run, so the final result carries the error string alongside normally produced
recommendations. -/
theorem handle_error_only_after_classification (o : Oracle) (q : String)
    (at0 : Option String) (t : String) (h : o.classify q = .ok t) :
    ((runGraph o (initialState q at0)).trace =
      [.classify_query, .gather_data, .process_data, .generate_insights,
       .create_visualizations, .formulate_recommendations, .calculate_confidence] ∧
     Node.handle_error ∉ (runGraph o (initialState q at0)).trace) ∧
    ((process_analytics_query chartFailOracle "compare the regions" none).error =
        "Visualization creation failed: chart service down" ∧
     (process_analytics_query chartFailOracle "compare the regions" none).recommendations =
        [.jstr "Sales differ significantly across regions."] ∧
     (runGraph chartFailOracle (initialState "compare the regions" none)).trace =
      [.classify_query, .gather_data, .process_data, .generate_insights,
       .create_visualizations, .formulate_recommendations, .calculate_confidence]) := by
  have hcs : classifyStage o (initialState q at0) =
      ⟨{ initialState q at0 with analysis_type := t }, [], []⟩ := by
    simp [classifyStage, initialState, h]
  have hroute : ¬ should_continue_after_classification
      (classifyStage o (initialState q at0)).state = "error" := by
    rw [hcs]
    simp [should_continue_after_classification, initialState]
  have htrace : (runGraph o (initialState q at0)).trace =
      [.classify_query, .gather_data, .process_data, .generate_insights,
       .create_visualizations, .formulate_recommendations, .calculate_confidence] := by
    rw [runGraph, if_neg hroute]
  refine ⟨⟨htrace, ?_⟩, rfl, rfl, rfl⟩
  rw [htrace]
  decide

/-- Witness for C10 with a successfully classifying behavior. -/
theorem handle_error_only_after_classification_witness :
    Node.handle_error ∉ (runGraph trendOracle (initialState "q" none)).trace :=
  (handle_error_only_after_classification trendOracle "q" none "trend_analysis"
    rfl).1.2

/-- C7: the visualization stage leaves the chart empty whenever the analysis
type is neither trend_analysis nor comparison, regardless of the raw data; it
calls the Chart collaborator, with the raw data wrapped into one synthetic
table document, exactly when the type matches and the raw data is non-empty;
and a raising chart call leaves the chart at its prior value, which is empty
throughout this workflow. -/
theorem create_visualizations_spec (o : Oracle) (s : AnalyticsState) :
    (s.analysis_type ≠ "trend_analysis" ∧ s.analysis_type ≠ "comparison" →
      (createVisualizationsStage o s).state.charts = [] ∧
      (createVisualizationsStage o s).chartCalls = []) ∧
    ((createVisualizationsStage o s).chartCalls ≠ [] ↔
      (¬ s.raw_data.isEmpty ∧
        (s.analysis_type = "trend_analysis" ∨ s.analysis_type = "comparison"))) ∧
    (¬ s.raw_data.isEmpty →
      s.analysis_type = "trend_analysis" ∨ s.analysis_type = "comparison" →
      (createVisualizationsStage o s).chartCalls =
        [(s.query, [syntheticTableDoc s.raw_data])]) ∧
    (∀ e, o.generateChart s.query [syntheticTableDoc s.raw_data] = .error e →
      s.charts = [] → (createVisualizationsStage o s).state.charts = []) := by
  by_cases hc : ¬ s.raw_data.isEmpty ∧
      (s.analysis_type = "trend_analysis" ∨ s.analysis_type = "comparison")
  · cases hg : o.generateChart s.query [syntheticTableDoc s.raw_data] with
    | ok res =>
      have hstage : createVisualizationsStage o s =
          ⟨{ s with charts := if res.isEmpty then [] else res }, [],
            [(s.query, [syntheticTableDoc s.raw_data])]⟩ := by
        simp only [createVisualizationsStage, hg]
        rw [if_pos hc]
      refine ⟨fun hne => absurd hc.2 (not_or.mpr ⟨hne.1, hne.2⟩), ?_,
        fun _ _ => by rw [hstage],
        fun e he => Except.noConfusion he⟩
      rw [hstage]
      simpa using hc
    | error e0 =>
      have hstage : createVisualizationsStage o s =
          ⟨{ s with error := "Visualization creation failed: " ++ e0 }, [],
            [(s.query, [syntheticTableDoc s.raw_data])]⟩ := by
        simp only [createVisualizationsStage, hg]
        rw [if_pos hc]
      refine ⟨fun hne => absurd hc.2 (not_or.mpr ⟨hne.1, hne.2⟩), ?_,
        fun _ _ => by rw [hstage], ?_⟩
      · rw [hstage]
        simpa using hc
      · intro e he hch
        rw [hstage]
        exact hch
  · have hstage : createVisualizationsStage o s = ⟨{ s with charts := [] }, [], []⟩ := by
      simp only [createVisualizationsStage]
      rw [if_neg hc]
    refine ⟨fun _ => by rw [hstage]; exact ⟨rfl, rfl⟩, ?_,
      fun h1 h2 => absurd ⟨h1, h2⟩ hc, fun e he hch => by rw [hstage]⟩
    rw [hstage]
    simpa using hc

/-- Witness for C7: a general-type state yields an empty chart and no call. -/
theorem create_visualizations_spec_witness :
    (createVisualizationsStage trendOracle generalState).state.charts = [] ∧
    (createVisualizationsStage trendOracle generalState).chartCalls = [] :=
  (create_visualizations_spec trendOracle generalState).1 (by decide)

/-- C4 counterexample: with empty retrieval the no-data narrative is produced,
yet the insight stage does not set the fixed no-insights message - the
narrative carries the analysis key, so extract_insights is invoked and its
parsed JSON answer (here six strings) is stored instead. -/
theorem no_data_insights_counterexample :
    (process_analytics_query genArrOracle "what is happening" none).data_points = 0 ∧
    (process_analytics_query genArrOracle "what is happening" none).analysis =
      "No relevant data found for analysis." ∧
    (runGraph genArrOracle (initialState "what is happening" none)).prompts ≠ [] ∧
    (process_analytics_query genArrOracle "what is happening" none).insights ≠
      [.jstr "No insights could be generated from the available data."] := by
  refine ⟨rfl, rfl, ?_, ?_⟩
  · have h : (runGraph genArrOracle (initialState "what is happening" none)).prompts.length = 2 := rfl
    intro hc
    rw [hc] at h
    cases h
  · have h : (process_analytics_query genArrOracle "what is happening" none).insights.length = 6 := rfl
    intro hc
    rw [hc] at h
    cases h

/-- C4 amended: with empty raw data the process stage yields the fixed no-data
narrative without any Generation call; the insight stage sets the fixed
no-insights message only when the state carries no analysis narrative at all,
and whenever a narrative is present (as it is after the no-data short-circuit)
it invokes the Generation collaborator with the insights prompt over that
narrative. -/
theorem no_data_narrative_amended (o : Oracle) (s : AnalyticsState)
    (h : s.raw_data = []) :
    (processDataStage o s).prompts = [] ∧
    (processDataStage o s).state.processed_analysis =
      some "No relevant data found for analysis." ∧
    (∀ s' : AnalyticsState, s'.processed_analysis = none →
      (generateInsightsStage o s').state.insights =
        [.jstr "No insights could be generated from the available data."] ∧
      (generateInsightsStage o s').prompts = []) ∧
    (∀ (s' : AnalyticsState) (a : String), s'.processed_analysis = some a →
      (generateInsightsStage o s').prompts =
        [insightsPrompt a s'.raw_data.length]) := by
  have hemp : s.raw_data.isEmpty = true := by rw [h]; rfl
  have hstage : processDataStage o s =
      ⟨{ s with processed_analysis := some "No relevant data found for analysis." },
        [], []⟩ := by
    simp only [processDataStage]
    rw [if_pos hemp]
  refine ⟨by rw [hstage], by rw [hstage], ?_, ?_⟩
  · intro s' hnone
    simp [generateInsightsStage, hnone]
  · intro s' a hsome
    simp only [generateInsightsStage, hsome]
    cases hg : o.generate (insightsPrompt a s'.raw_data.length) <;> rfl

/-- Witness for C4 amended at a concrete empty-data state. -/
theorem no_data_narrative_amended_witness :
    (processDataStage genArrOracle (initialState "what is happening" none)).prompts = [] :=
  (no_data_narrative_amended genArrOracle (initialState "what is happening" none)
    rfl).1

/-- C6 counterexample: on a non-empty-data trend_analysis state the process
stage issues no Generation call at all - the narrative is formatted from the
specialized trend-analysis result instead. -/
theorem trend_no_generation_counterexample :
    trendState.raw_data ≠ [] ∧
    (processDataStage trendOracle trendState).prompts.length = 0 ∧
    (processDataStage trendOracle trendState).state.processed_analysis =
      some "Trend analysis reveals: rising" := by
  refine ⟨?_, rfl, rfl⟩
  simp [trendState]

/-- C6 amended: with non-empty raw data, the comparison, summary and general
routines each send exactly one type-specific Generation prompt embedding the
record count (with up to 3 sample records for comparison and up to 5 for
general), while the trend_analysis routine sends no Generation prompt and
formats its narrative from the trend-analysis result. -/
theorem process_data_generation_calls (o : Oracle) (s : AnalyticsState)
    (h : ¬ s.raw_data.isEmpty) :
    (s.analysis_type = "trend_analysis" →
      (processDataStage o s).prompts = [] ∧
      (∀ tr, o.analyzeTrends s.query = .ok tr →
        (processDataStage o s).state.processed_analysis =
          some ("Trend analysis reveals: " ++ tr))) ∧
    (s.analysis_type = "comparison" →
      (processDataStage o s).prompts = [comparisonPrompt s.query s.raw_data] ∧
      pyContains (comparisonPrompt s.query s.raw_data)
        (toString s.raw_data.length) = true ∧
      pyContains (comparisonPrompt s.query s.raw_data)
        (pyRecordsRepr (s.raw_data.take 3)) = true) ∧
    (s.analysis_type = "summary" →
      (processDataStage o s).prompts = [summaryPrompt s.query s.raw_data] ∧
      pyContains (summaryPrompt s.query s.raw_data)
        (toString s.raw_data.length) = true) ∧
    (s.analysis_type ≠ "trend_analysis" → s.analysis_type ≠ "comparison" →
      s.analysis_type ≠ "summary" →
      (processDataStage o s).prompts = [generalPrompt s.query s.raw_data] ∧
      pyContains (generalPrompt s.query s.raw_data)
        (toString s.raw_data.length) = true ∧
      pyContains (generalPrompt s.query s.raw_data)
        (pyRecordsRepr (s.raw_data.take 5)) = true) := by
  have hemp : s.raw_data.isEmpty = false := by
    cases hx : s.raw_data.isEmpty
    · rfl
    · exact absurd hx h
  refine ⟨?_, ?_, ?_, ?_⟩
  · intro ht
    constructor
    · cases hat : o.analyzeTrends s.query <;>
        simp [processDataStage, ht, hemp, hat]
    · intro tr hat
      simp [processDataStage, ht, hemp, hat]
  · intro ht
    refine ⟨?_, ?_, ?_⟩
    · cases hg : o.generate (comparisonPrompt s.query s.raw_data) <;>
        simp [processDataStage, ht, hemp, hg]
    · apply pyContains_parts _
        ("\n        Perform a comparative analysis based on this query: " ++
          s.query ++ "\n        \n        Data available: ") _
        (" records\n        Sample: " ++
          (if s.raw_data.isEmpty then "No data"
            else pyRecordsRepr (s.raw_data.take 3)) ++
          "\n        \n        Identify:\n        1. Key metrics being compared\n        2. Significant differences\n        3. Performance rankings\n        4. Statistical significance\n        ")
      simp only [comparisonPrompt, String.append_assoc]
    · apply pyContains_parts _
        ("\n        Perform a comparative analysis based on this query: " ++
          s.query ++ "\n        \n        Data available: " ++
          toString s.raw_data.length ++ " records\n        Sample: ") _
        ("\n        \n        Identify:\n        1. Key metrics being compared\n        2. Significant differences\n        3. Performance rankings\n        4. Statistical significance\n        ")
      simp only [comparisonPrompt, hemp, Bool.false_eq_true, if_false,
        String.append_assoc]
  · intro ht
    constructor
    · cases hg : o.generate (summaryPrompt s.query s.raw_data) <;>
        simp [processDataStage, ht, hemp, hg]
    · apply pyContains_parts _
        ("\n        Create a comprehensive summary for: " ++ s.query ++
          "\n        \n        Data overview:\n        - Records: ") _
        ("\n        - Statistics: " ++ graphBasicStatsRepr s.raw_data ++
          "\n        \n        Provide:\n        1. Key highlights\n        2. Important patterns\n        3. Notable findings\n        4. Overall assessment\n        ")
      simp only [summaryPrompt, String.append_assoc]
  · intro h1 h2 h3
    refine ⟨?_, ?_, ?_⟩
    · cases hg : o.generate (generalPrompt s.query s.raw_data) <;>
        simp [processDataStage, h1, h2, h3, hemp, hg]
    · apply pyContains_parts _
        ("\n        Analyze the data to answer: " ++ s.query ++
          "\n        \n        Available data: ") _
        (" records\n        Sample data: " ++
          (if s.raw_data.isEmpty then "No data"
            else pyRecordsRepr (s.raw_data.take 5)) ++
          "\n        \n        Provide a thorough analysis addressing the query.\n        ")
      simp only [generalPrompt, String.append_assoc]
    · apply pyContains_parts _
        ("\n        Analyze the data to answer: " ++ s.query ++
          "\n        \n        Available data: " ++ toString s.raw_data.length ++
          " records\n        Sample data: ") _
        ("\n        \n        Provide a thorough analysis addressing the query.\n        ")
      simp only [generalPrompt, hemp, Bool.false_eq_true, if_false,
        String.append_assoc]

/-- Witness for C6 amended at the concrete trend state. -/
theorem process_data_generation_calls_witness :
    (processDataStage trendOracle trendState).prompts = [] :=
  ((process_data_generation_calls trendOracle trendState (by decide)).1 rfl).1

/-- C8 counterexample: when the Generation collaborator answers a valid JSON
array of six strings, both the final insights and the final recommendations
hold six items, so neither sequence is capped at five. -/
theorem insights_cap_counterexample :
    (process_analytics_query genArrOracle "what is happening" none).insights.length = 6 ∧
    (process_analytics_query genArrOracle "what is happening" none).recommendations.length = 6 ∧
    ¬ ((process_analytics_query genArrOracle "what is happening" none).insights.length ≤ 5) := by
  refine ⟨rfl, rfl, ?_⟩
  intro hc
  have h6 : (process_analytics_query genArrOracle "what is happening" none).insights.length = 6 := rfl
  rw [h6] at hc
  omega

/-- C8 amended: the five-item cap applies only on the JSON-parse-failure
fallback paths of the insight and recommendation stages; a response parsing as
a JSON array is stored verbatim, whatever its length. -/
theorem parse_fallback_caps (o : Oracle) (s : AnalyticsState) :
    (∀ a response, s.processed_analysis = some a →
      o.generate (insightsPrompt a s.raw_data.length) = .ok response →
      ((loads response = none →
          (generateInsightsStage o s).state.insights.length ≤ 5) ∧
        (∀ l, loads response = some (.jarr l) →
          (generateInsightsStage o s).state.insights = l))) ∧
    (∀ joined response, pyJoinJVals "; " s.insights = .ok joined →
      o.generate (recommendationsPrompt s.analysis_type
          (s.processed_analysis.getD "") joined) = .ok response →
      ((loads response = none →
          (formulateRecommendationsStage o s).state.recommendations.length ≤ 5) ∧
        (∀ l, loads response = some (.jarr l) →
          (formulateRecommendationsStage o s).state.recommendations = l))) := by
  refine ⟨?_, ?_⟩
  · intro a response hsome hgen
    constructor
    · intro hl
      simp only [generateInsightsStage, hsome, hgen, hl]
      simp [extract_insights_fallback]
    · intro l hl
      simp only [generateInsightsStage, hsome, hgen, hl]
  · intro joined response hjoin hgen
    constructor
    · intro hl
      simp only [formulateRecommendationsStage, hjoin, hgen, hl]
      simp
    · intro l hl
      simp only [formulateRecommendationsStage, hjoin, hgen, hl]

/-- Witness for C8 amended: a plain-text answer falls back and stays capped. -/
theorem parse_fallback_caps_witness :
    (generateInsightsStage trendOracle generalState).state.insights.length ≤ 5 :=
  ((parse_fallback_caps trendOracle generalState).1
    "The metric shows a significant increase in value across periods."
    "plain text" rfl rfl).1 rfl

end PdfRag
